import Mathlib

/-!
Verification development for the `sa_utils` automation scripts
(Confluence publishing pipeline: runner selection, process launch,
artifact wait, presence enrichment, table rendering, wiki publishing).

Python strings handled by the widget-name normalisation functions are
modelled as lists of Unicode code points (`List Nat`); elsewhere Lean
`String` is used.  Machine behaviour (subprocesses, HTTP, filesystem)
is modelled by passing the observed outcomes explicitly.
-/

namespace SAUtils

/-! ### Python string primitives on code points

`pyIsSpaceB` models Python `str.strip`'s whitespace set (ASCII whitespace;
the scripts' widget names are ASCII identifiers).  `pyLower` models
`str.lower` on a code point (ASCII case mapping). -/

def pyIsSpaceB (n : Nat) : Bool :=
  n = 32 || n = 9 || n = 10 || n = 13 || n = 11 || n = 12

/-- Python `s.strip()`: drop leading and trailing whitespace. -/
def pyStrip (l : List Nat) : List Nat :=
  ((l.dropWhile pyIsSpaceB).reverse.dropWhile pyIsSpaceB).reverse

/-- Python `str.lower` on one code point (ASCII range). -/
def pyLower (n : Nat) : Nat :=
  if 65 ≤ n ∧ n ≤ 90 then n + 32 else n

/-- Python `s.replace(chr a, chr b)` for single-char patterns. -/
def replaceCh (a b : Nat) (l : List Nat) : List Nat :=
  l.map (fun c => if c = a then b else c)

/-- Does the string contain two consecutive hyphens (`"--" in n`)?
45 is the code point of `-`. -/
def hasDD : List Nat → Bool
  | [] => false
  | [_] => false
  | a :: b :: rest => (a = 45 && b = 45) || hasDD (b :: rest)

/-- One pass of Python `n.replace("--", "-")`: leftmost non-overlapping
occurrences of two hyphens are replaced by one. -/
def replaceDD : List Nat → List Nat
  | [] => []
  | [c] => [c]
  | a :: b :: rest =>
    if a = 45 && b = 45 then 45 :: replaceDD rest
    else a :: replaceDD (b :: rest)

/-- Fuel-indexed iteration of the `while "--" in n: n = n.replace("--", "-")`
loop.  Each pass strictly shortens the string, so `l.length` fuel always
suffices (proved below in `hasDD_goCollapse`). -/
def goCollapse : Nat → List Nat → List Nat
  | 0, x => x
  | n + 1, x => if hasDD x then goCollapse n (replaceDD x) else x

def collapseDD (l : List Nat) : List Nat := goCollapse l.length l

/-- `_normalize_widget_name` from `confluence_save_table_with_presence.py`:
strip, lowercase, `_`→`-`, ` `→`-`, collapse `--` runs.
(95 = `_`, 32 = space, 45 = `-`.) -/
def normalize_widget_name_presence (s : List Nat) : List Nat :=
  collapseDD (replaceCh 32 45 (replaceCh 95 45 ((pyStrip s).map pyLower)))

/-- `normalize_widget_name` from `find_published_widgets_hardened.py`:
empty/blank input gives `""`; otherwise strip, `_`→`-`, ` `→`-`,
collapse `--`, and lowercase last. -/
def normalize_widget_name (s : List Nat) : List Nat :=
  if s = [] then []
  else
    let t := pyStrip s
    if t = [] then []
    else (collapseDD (replaceCh 32 45 (replaceCh 95 45 t))).map pyLower

/-! ### Char/String level helpers (same Python primitives on Lean `String`) -/

def pyIsSpaceChar (c : Char) : Bool := pyIsSpaceB c.toNat

def pyLowerChar (c : Char) : Char :=
  if 65 ≤ c.toNat ∧ c.toNat ≤ 90 then Char.ofNat (c.toNat + 32) else c

def pyStripStr (s : String) : String :=
  String.mk (((s.data.dropWhile pyIsSpaceChar).reverse.dropWhile pyIsSpaceChar).reverse)

def pyLowerStr (s : String) : String := String.mk (s.data.map pyLowerChar)

/-- `html.escape(s)` with the default `quote=True`. -/
def htmlEscapeChar (c : Char) : List Char :=
  if c = '&' then "&amp;".data
  else if c = '<' then "&lt;".data
  else if c = '>' then "&gt;".data
  else if c = '"' then "&quot;".data
  else if c = '\'' then "&#x27;".data
  else [c]

def htmlEscape (s : String) : String := String.mk ((s.data.map htmlEscapeChar).flatten)

/-- `_safe(v)` / `safe(v)`: `html.escape("" if v is None else str(v))`. -/
def pySafe (v : Option String) : String := htmlEscape (v.getD "")

/-- Substring test on char lists (used to state what a message contains). -/
def hasSubstring (pat : List Char) : List Char → Bool
  | [] => pat.isEmpty
  | c :: t => pat.isPrefixOf (c :: t) || hasSubstring pat t

/-! ### Wiki Publisher (claim C1)

`update_page_storage` in `widgets_confluence_pipeline.py` GETs the page
version and PUTs `number+1`; `main` in `widgets_to_confluence_combined.py`
computes `int(version_obj.get("number") or 1) + 1`.  A GET response is
modelled by the `version.number` value it carries (`none` = absent). -/

structure PagePutPayload where
  id : String
  typ : String
  versionNumber : Int
  title : Option String
  bodyValue : String
deriving DecidableEq

/-- `get_page_version`: `int(data.get("version", {}).get("number", 0))`. -/
def get_page_version (versionNumber : Option Int) : Int := versionNumber.getD 0

/-- The PUT payload built by `update_page_storage` (the GET happens inside:
`cur_version = get_page_version(...)`, payload number is `cur_version + 1`). -/
def update_page_storage (pageId : String) (htmlBody : String) (title : Option String)
    (respVersionNumber : Option Int) : PagePutPayload :=
  { id := pageId, typ := "page",
    versionNumber := get_page_version respVersionNumber + 1,
    title := title, bodyValue := htmlBody }

/-- `widgets_to_confluence_combined.main`:
`current_version = int(version_obj.get("number") or 1)` (Python `or`
replaces a falsy `0`/missing value by `1`). -/
def combinedCurrentVersion (vn : Option Int) : Int :=
  match vn with
  | none => 1
  | some n => if n = 0 then 1 else n

def combinedNextVersion (vn : Option Int) : Int := combinedCurrentVersion vn + 1

/-! ### Artifact Waiter (claim C2)

The wait loop in `confluence_save_table_with_presence.py` `main` polls
`outfile.exists() and outfile.stat().st_size > 0` until the timeout, but
after the loop raises only `if not outfile.exists()`; otherwise it goes on
to read the file.  The variant in `confluence_save_table_with_presence_2.py`
raises inside the loop whenever the deadline passes.  A run is modelled by
the sequence of per-poll file observations and the state seen after the
loop. -/

structure FileObs where
  ex : Bool
  size : Nat
deriving DecidableEq

def artifactReady (o : FileObs) : Bool := o.ex && decide (0 < o.size)

inductive WaitOutcome
  | foundNonEmpty
  | readAttempted
  | raisedNotFound
deriving DecidableEq

/-- Wait phase of `confluence_save_table_with_presence.py` `main`. -/
def wait_for_artifact_presence (obs : List FileObs) (finalState : FileObs) : WaitOutcome :=
  if obs.any artifactReady then .foundNonEmpty
  else if finalState.ex then .readAttempted
  else .raisedNotFound

/-- Wait phase of `confluence_save_table_with_presence_2.py` `main`. -/
def wait_for_artifact_presence2 (obs : List FileObs) : WaitOutcome :=
  if obs.any artifactReady then .foundNonEmpty
  else .raisedNotFound

/-! ### Table Renderer (claims C3, C4)

`render_table_html` (presence variant) picks the DEV/IFT cell text by the
tri-state identity tests `dev_present is True` / `is False` / otherwise.
`render_html` in `confluence_save_table_with_presence_2.py` renders
`safe(prom or '❌')` — a truthy/falsy coercion with only two markers. -/

/-- The cell marker of `render_table_html`:
`"✅" if p is True else ("❌" if p is False else "—")`. -/
def presenceMarker (b : Option Bool) : String :=
  match b with
  | some true => "✅"
  | some false => "❌"
  | none => "—"

structure RenderItem where
  name : String
  xVersion : Option Int
  agents : String
  desc : String
  devPresent : Option Bool
  iftPresent : Option Bool

/-- `_storybook_link`: drops underscores from the name and escapes the URL. -/
def storybook_link (name : String) : String :=
  let slug := String.mk (name.data.filter (fun c => c ≠ '_'))
  let url := "http://10.53.31.7:6001/public-storybook/?path=/docs/widget-store_widgets-"
    ++ slug ++ "--docs"
  "<a href=\"" ++ htmlEscape url ++ "\">" ++ htmlEscape url ++ "</a>"

/-- One `<tr>` of `render_table_html`. -/
def render_table_row (it : RenderItem) : String :=
  let link := if it.name = "" then "" else storybook_link it.name
  "    <tr>\n      <td>" ++ htmlEscape it.name
    ++ "</td>\n      <td>" ++ htmlEscape (match it.xVersion with | some v => toString v | none => "")
    ++ "</td>\n      <td>" ++ presenceMarker it.devPresent
    ++ "</td>\n      <td>" ++ presenceMarker it.iftPresent
    ++ "</td>\n      <td>" ++ htmlEscape it.agents
    ++ "</td>\n      <td>" ++ htmlEscape it.desc
    ++ "</td>\n      <td>" ++ link ++ "</td>\n    </tr>"

def renderTableHead : String :=
  "\n<table class=\"wrapped\">\n  <colgroup><col/><col/><col/><col/><col/><col/><col/></colgroup>\n  <tbody>\n    <tr>\n      <th scope=\"col\">name</th>\n      <th scope=\"col\">xVersion</th>\n      <th scope=\"col\">DEV</th>\n      <th scope=\"col\">IFT</th>\n      <th scope=\"col\">agents</th>\n      <th scope=\"col\">display_description</th>\n      <th scope=\"col\">Storybook</th>\n    </tr>"

def renderTableTail : String := "  </tbody>\n</table>\n"

def render_table_html (items : List RenderItem) : String :=
  String.intercalate "\n" ([renderTableHead] ++ items.map render_table_row ++ [renderTableTail])

/-- `normalize_key` of `confluence_save_table_with_presence_2.py`:
`re.sub(r"[^a-z0-9]+", "", name.strip().lower())`. -/
def normalize_key (s : String) : String :=
  String.mk (((pyStripStr s).data.map pyLowerChar).filter
    (fun c => ('a' ≤ c && c ≤ 'z') || ('0' ≤ c && c ≤ '9')))

/-- One row of `published_versions`: highest published release per
environment (`none` when no release was found for that environment). -/
structure PubEntry where
  widget : String
  dev : Option Int
  ift : Option Int
deriving DecidableEq

def lookupPub (published : List (String × PubEntry)) (k : String) : Option PubEntry :=
  (published.find? (fun p => p.1 == k)).map (fun p => p.2)

/-- Python `prom or '❌'` before `safe`: `0`, like `None`, is falsy. -/
def pyOrDisplay (prom : Option Int) : String :=
  match prom with
  | some n => if n = 0 then "❌" else toString n
  | none => "❌"

/-- The PROM/IFT cell of `render_html`: `safe(prom or '❌')`. -/
def promCellPy (prom : Option Int) : String := htmlEscape (pyOrDisplay prom)

structure Item2 where
  name : String
  agents : String
  desc : String

/-- One `<tr>` of `render_html` in `confluence_save_table_with_presence_2.py`. -/
def render_html_row (it : Item2) (published : List (String × PubEntry)) : String :=
  let key := normalize_key it.name
  let pub := lookupPub published key
  let displayName := match pub with | some p => p.widget | none => it.name
  let prom := pub.bind PubEntry.dev
  let ift := pub.bind PubEntry.ift
  "<tr>" ++ "<td>" ++ htmlEscape displayName ++ "</td>"
    ++ "<td>" ++ promCellPy prom ++ "</td>"
    ++ "<td>" ++ promCellPy ift ++ "</td>"
    ++ "<td>" ++ htmlEscape it.agents ++ "</td>"
    ++ "<td>" ++ htmlEscape it.desc ++ "</td>"
    ++ "<td></td>" ++ "</tr>"

/-- `pandas.DataFrame.to_html(index=False, escape=escape, border=1)`,
modelled from the library's documented semantics: with `escape=False`
cell and header text is emitted verbatim, with `escape=True` it is
HTML-escaped.  The dataframe is its column names and string cells. -/
def pandasCell (escape : Bool) (v : String) : String :=
  if escape then htmlEscape v else v

def pandas_to_html (escape : Bool) (cols : List String) (rows : List (List String)) : String :=
  "<table border=\"1\" class=\"dataframe\">\n  <thead>\n    <tr>\n"
    ++ String.join (cols.map (fun c => "      <th>" ++ pandasCell escape c ++ "</th>\n"))
    ++ "    </tr>\n  </thead>\n  <tbody>\n"
    ++ String.join (rows.map (fun r =>
        "    <tr>\n"
          ++ String.join (r.map (fun v => "      <td>" ++ pandasCell escape v ++ "</td>\n"))
          ++ "    </tr>\n"))
    ++ "  </tbody>\n</table>"

/-- `dataframe_to_confluence_html_table`:
`df.to_html(index=False, escape=False, border=1)`. -/
def dataframe_to_confluence_html_table (cols : List String) (rows : List (List String)) : String :=
  pandas_to_html false cols rows

/-! ### Runner Selector (claim C5) -/

inductive ModuleMode
  | esm
  | cjs
  | unknown
deriving DecidableEq

/-- `_detect_module_mode`: `package.json` `type` field, else
`tsconfig.json` `compilerOptions.module` (lowercased). -/
def detect_module_mode (pkgType : Option String) (tsModule : Option String) : ModuleMode :=
  if pkgType = some "module" then .esm
  else
    let m := pyLowerStr (tsModule.getD "")
    if m.startsWith "es" then .esm
    else if m = "commonjs" || m = "cjs" then .cjs
    else .unknown

/-- `_candidate_bins` output: resolved binary paths found for each tool
(`node` falls back to the bare name `"node"` when nothing was found). -/
structure Bins where
  tsx : List String
  tsnode : List String
  nodeRaw : List String
  npx : List String

def nodeBins (b : Bins) : List String := if b.nodeRaw = [] then ["node"] else b.nodeRaw

def runnerKey (r : List String) : String := String.intercalate " " r

/-- The dedup loop at the end of `_pick_runners` (first occurrence wins,
keyed by the space-joined argv). -/
def uniqRunners : List (List String) → List String → List (List String)
  | [], _ => []
  | r :: rest, seen =>
    let k := runnerKey r
    if seen.contains k then uniqRunners rest seen
    else r :: uniqRunners rest (k :: seen)

/-- `_pick_runners` of `confluence_save_table_with_presence.py`. -/
def pick_runners (script : String) (b : Bins) (mode : ModuleMode) : List (List String) :=
  let runners :=
    (b.tsx.map (fun t => [t, script]))
    ++ (match b.npx with | [] => [] | n :: _ => [[n, "-y", "tsx", script]])
    ++ (if mode = .esm || mode = .unknown then
          (b.tsnode.map (fun t => [t, "--esm", "--transpile-only", script]))
          ++ [[(nodeBins b).headD "node", "--loader", "ts-node/esm", script]]
        else [])
    ++ (if mode = .cjs || mode = .unknown then
          (b.tsnode.map (fun t => [t, "--transpile-only", script]))
          ++ [[(nodeBins b).headD "node", "-r", "ts-node/register", script]]
        else [])
  uniqRunners runners []

/-- A candidate argv is CommonJS-oriented when it loads `ts-node/register`
or runs `ts-node --transpile-only` without `--esm`. -/
def cjsOriented (cmd : List String) : Bool :=
  cmd.contains "ts-node/register" || (cmd.contains "--transpile-only" && !(cmd.contains "--esm"))

/-- A candidate argv is ECMAScript-module-oriented when it passes `--esm`
or the `ts-node/esm` loader. -/
def esmOriented (cmd : List String) : Bool :=
  cmd.contains "ts-node/esm" || cmd.contains "--esm"

/-- The runner list built by `_maybe_run_ts` in
`widgets_to_confluence_combined.py`.  The function never inspects the
project's `package.json` (the `_pkgType` argument stands for the
manifest of the `project_root` it receives and is ignored, as in the
source); with `node` available it appends the CJS invocation first and
the ESM invocation second. -/
def maybe_run_ts_runners (_pkgType : Option String) (script : String)
    (node bun pnpm npm yarn : Option String) : List (List String) :=
  (match node with
   | some n => [[n, "-r", "ts-node/register", script], [n, "--loader", "ts-node/esm", script]]
   | none => [])
  ++ (match bun with | some x => [[x, "run", script]] | none => [])
  ++ (match pnpm with | some x => [[x, "exec", "ts-node", script]] | none => [])
  ++ (match npm with | some x => [[x, "exec", "ts-node", script]] | none => [])
  ++ (match yarn with | some x => [[x, "ts-node", script]] | none => [])

/-! ### Process Launcher (claim C6)

`_run_stream`: the loop breaks as soon as `proc.poll()` reports the exit
(modelled by `exitTime`, the elapsed seconds at which the process ends);
if the deadline passes first the process is killed and a `TimeoutError`
is raised; a non-zero exit raises `RuntimeError` whose message carries
the return code.  The captured output is streamed to the caller's stdout
as it arrives (the `capturedOutput` argument records it); it is not part
of either raised failure. -/

inductive RunResult
  | ok
  | killedTimeout (msg : String)
  | processFailed (msg : String)
deriving DecidableEq

def run_stream (exitTime : Nat) (exitCode : Int) (_capturedOutput : String)
    (timeoutSec : Nat) : RunResult :=
  if exitTime ≤ timeoutSec then
    if exitCode = 0 then .ok
    else .processFailed ("Процесс завершился с кодом " ++ toString exitCode)
  else .killedTimeout ("Превышен таймаут " ++ toString timeoutSec ++ " сек")

/-! ### Presence Enricher (claim C7)

`_fetch_json` and `_head_request` catch every `HTTPError`/other exception
and return an `ok=False` result, so `check_widget` is total;
`_presence_for_item` skips enrichment when the stripped name is empty or
the version does not parse as an integer.  An HTTP interaction is
modelled by its outcome (`HttpOutcome`); URLs are kept structured. -/

inductive HttpOutcome
  | success (status : Nat) (parsesAsJson : Bool)
  | httpFail (code : Nat)
  | netFail (msg : String)
deriving DecidableEq

structure FetchResult where
  ok : Bool
  status : Option Nat
  failText : Option String
deriving DecidableEq

/-- `_fetch_json`: every exception path yields an `ok=False` result. -/
def fetch_json : HttpOutcome → FetchResult
  | .success st p =>
    if p then { ok := true, status := some st, failText := none }
    else { ok := false, status := some st, failText := some "Invalid JSON" }
  | .httpFail c => { ok := false, status := some c, failText := some ("HTTP " ++ toString c) }
  | .netFail m => { ok := false, status := none, failText := some m }

structure HeadResult where
  ok : Bool
  status : Option Nat
deriving DecidableEq

/-- `_head_request`: `ok` is `200 <= status < 400`; exceptions yield `ok=False`. -/
def head_request : HttpOutcome → HeadResult
  | .success st _ => { ok := decide (200 ≤ st ∧ st < 400), status := some st }
  | .httpFail c => { ok := false, status := some c }
  | .netFail _ => { ok := false, status := none }

/-- `_build_url` result, kept structured (base/slug/version/filename). -/
structure BuildUrl where
  base : String
  widget : List Nat
  version : Int
  file : String
deriving DecidableEq

def build_url (base : String) (widget : List Nat) (version : Int) (file : String) : BuildUrl :=
  { base := base, widget := normalize_widget_name_presence widget,
    version := version, file := file }

structure EnvWorld where
  stats : HttpOutcome
  headOutcome : HttpOutcome
deriving DecidableEq

structure ProbeWorld where
  dev : EnvWorld
  ift : EnvWorld
deriving DecidableEq

structure EnvCheck where
  present : Bool
  statsUrl : BuildUrl
  containerUrl : BuildUrl
deriving DecidableEq

def DEV_BASE_DEFAULT : String :=
  "https://cms-res-web.online.sberbank.ru/da-sdk-b2c/widget-store/widget-store"

def IFT_BASE_DEFAULT : String :=
  "https://cms-res-web.iftonline.sberbank.ru/SBERCMS/da-sdk-b2c/widget-store/widget-store"

/-- `_check_widget_in_environment`: `present = bool(stats.ok and head.ok)`. -/
def check_widget_in_environment (widget : List Nat) (version : Int) (base : String)
    (w : EnvWorld) : EnvCheck :=
  { present := (fetch_json w.stats).ok && (head_request w.headOutcome).ok,
    statsUrl := build_url base widget version "mf-stats.json",
    containerUrl := build_url base widget version "container.js" }

structure CheckWidgetResult where
  normalizedName : List Nat
  version : Int
  devPresent : Bool
  iftPresent : Bool
  devUrl : BuildUrl
  iftUrl : BuildUrl
deriving DecidableEq

def check_widget (widget : List Nat) (version : Int) (w : ProbeWorld) : CheckWidgetResult :=
  let dev := check_widget_in_environment widget version DEV_BASE_DEFAULT w.dev
  let ift := check_widget_in_environment widget version IFT_BASE_DEFAULT w.ift
  { normalizedName := normalize_widget_name_presence widget, version := version,
    devPresent := dev.present, iftPresent := ift.present,
    devUrl := dev.containerUrl, iftUrl := ift.containerUrl }

/-- The `xVersion` field of a record: absent/None, an int-convertible
value, or a value `int()` rejects. -/
inductive PyVer
  | absent
  | intVal (n : Int)
  | nonInt
deriving DecidableEq

/-- `int(version) if version is not None else None`, with the `except`
branch mapping a failed conversion to `None`. -/
def parse_version : PyVer → Option Int
  | .absent => none
  | .intVal n => some n
  | .nonInt => none

structure ItemIn where
  name : List Nat
  xVersion : PyVer
deriving DecidableEq

structure ItemOut where
  name : List Nat
  xVersion : PyVer
  devPresent : Option Bool
  iftPresent : Option Bool
  devUrl : Option BuildUrl
  iftUrl : Option BuildUrl
  presenceFailText : Option String
deriving DecidableEq

/-- The record returned when enrichment is skipped: the `setdefault`
calls put `None` into the presence fields of a build-artifact record
(which carries no presence keys of its own). -/
def skipEnrichment (it : ItemIn) : ItemOut :=
  { name := it.name, xVersion := it.xVersion, devPresent := none, iftPresent := none,
    devUrl := none, iftUrl := none, presenceFailText := none }

/-- `_presence_for_item`.  The `try/except` around `check_widget` is
modelled by totality: every exception inside `_fetch_json`/`_head_request`
is already caught there, so the `presence_error` branch never fires. -/
def presence_for_item (it : ItemIn) (w : ProbeWorld) : ItemOut :=
  match pyStrip it.name, parse_version it.xVersion with
  | [], _ => skipEnrichment it
  | _ :: _, none => skipEnrichment it
  | c :: rest, some v =>
    let res := check_widget (c :: rest) v w
    { name := if res.normalizedName = [] then it.name else res.normalizedName,
      xVersion := it.xVersion,
      devPresent := some res.devPresent,
      iftPresent := some res.iftPresent,
      devUrl := some res.devUrl,
      iftUrl := some res.iftUrl,
      presenceFailText := none }

/-! ### Wiki Publisher ancestors (claim C8) -/

structure AncEntry where
  id : Option String
  contentId : Option String
deriving DecidableEq

/-- Python `str(x)` where `x` may be `None`. -/
def pyStrOpt : Option String → String
  | some s => s
  | none => "None"

/-- Python `a or b` on optional strings (empty string is falsy; the value
of `b` is returned as-is when `a` is falsy). -/
def pyOrStr (a b : Option String) : Option String :=
  match a with
  | some s => if s = "" then b else some s
  | none => b

/-- `_parent_ancestor` of `widgets_to_confluence_combined.py`: keeps only
the last ancestor's id, as a single-entry list. -/
def parent_ancestor (anc : List AncEntry) : Option (List String) :=
  match anc.getLast? with
  | none => none
  | some last =>
    let pid := pyStrOpt (pyOrStr last.id last.contentId)
    if pid = "" then none else some [pid]

/-- The ancestors put into the PUT payload by
`confluence_save_table_with_presence.py` `main`:
`ancestors = page.get("ancestors") or []` passed to
`confluence_put_storage`, which sets `payload["ancestors"] = ancestors`
whenever the list is non-empty — the full chain. -/
def presence_main_ancestors (anc : List AncEntry) : Option (List AncEntry) :=
  if anc.isEmpty then none else some anc

structure Anc2Entry where
  id : String
deriving DecidableEq

/-- `confluence_save_table_with_presence_2.py` `main`:
`[{"id": anc[-1]["id"]}] if anc else None`. -/
def presence2_ancestors (anc : List Anc2Entry) : Option (List String) :=
  match anc.getLast? with
  | none => none
  | some last => some [last.id]

/-! ### Finder capture (claim C10)

`run_finder_capture_json` is modelled by the observed finder run: its
return code, stdout and stderr text, whether stdout parses as JSON, and
whether a file already exists at `json_out`. -/

inductive FinderFailure
  | missingCmd
  | finderFailed (rc : Int) (stderrSample : String)
  | notJson (stderrSample : String)
deriving DecidableEq

def run_finder_capture_json (finderCmd : String) (rc : Int) (stdoutText : String)
    (stderrText : String) (fileExistsAtOut : Bool) (stdoutParses : Bool)
    (jsonOut : String) : Except FinderFailure String :=
  if finderCmd = "" then .error .missingCmd
  else if rc ≠ 0 ∧ pyStripStr stdoutText = "" then .error (.finderFailed rc stderrText)
  else if jsonOut ≠ "" ∧ fileExistsAtOut then .ok jsonOut
  else if stdoutParses then .ok (if jsonOut ≠ "" then jsonOut else "published-widgets.json")
  else .error (.notJson stderrText)

/-! ## Supporting lemmas -/

theorem pyLower_idem (c : Nat) : pyLower (pyLower c) = pyLower c := by
  unfold pyLower
  by_cases h : 65 ≤ c ∧ c ≤ 90
  · rw [if_pos h, if_neg (by omega)]
  · rw [if_neg h, if_neg h]

theorem pyLower_fix_of_not_upper {c : Nat} (h : ¬(65 ≤ c ∧ c ≤ 90)) : pyLower c = c :=
  if_neg h

theorem pyLower_eq_45_iff (c : Nat) : pyLower c = 45 ↔ c = 45 := by
  unfold pyLower
  by_cases h : 65 ≤ c ∧ c ≤ 90
  · rw [if_pos h]; omega
  · rw [if_neg h]

theorem pyIsSpaceB_eq_false_of_ge {n : Nat} (h : 65 ≤ n) : pyIsSpaceB n = false := by
  simp only [pyIsSpaceB, Bool.or_eq_false_iff, decide_eq_false_iff_not]
  omega

theorem pyIsSpaceB_pyLower (c : Nat) : pyIsSpaceB (pyLower c) = pyIsSpaceB c := by
  unfold pyLower
  by_cases h : 65 ≤ c ∧ c ≤ 90
  · rw [if_pos h, pyIsSpaceB_eq_false_of_ge (by omega), pyIsSpaceB_eq_false_of_ge (by omega)]
  · rw [if_neg h]

theorem mem_replaceCh {c a b : Nat} {l : List Nat} (h : c ∈ replaceCh a b l) :
    c = b ∨ (c ∈ l ∧ c ≠ a) := by
  unfold replaceCh at h
  obtain ⟨d, hd, hdc⟩ := List.mem_map.mp h
  by_cases hda : d = a
  · left; rw [← hdc, if_pos hda]
  · right
    rw [← hdc, if_neg hda]
    exact ⟨hd, hda⟩

theorem replaceCh_eq_self {a b : Nat} {l : List Nat} (h : a ∉ l) : replaceCh a b l = l := by
  unfold replaceCh
  have : ∀ d ∈ l, (if d = a then b else d) = d := by
    intro d hd
    have hda : d ≠ a := by
      rintro rfl
      exact h hd
    rw [if_neg hda]
  simp [List.map_congr_left this]

theorem getLast?_map (f : Nat → Nat) (l : List Nat) :
    (l.map f).getLast? = l.getLast?.map f := by
  rw [← List.head?_reverse, ← List.map_reverse, List.head?_map, List.head?_reverse]

theorem getLast?_cons_of_ne_nil {a : Nat} {l : List Nat} (h : l ≠ []) :
    (a :: l).getLast? = l.getLast? := by
  cases l with
  | nil => exact absurd rfl h
  | cons x xs => exact List.getLast?_cons_cons

theorem replaceDD_ne_nil : ∀ l : List Nat, l ≠ [] → replaceDD l ≠ []
  | [], h => absurd rfl h
  | [_], _ => by simp [replaceDD]
  | _ :: _ :: _, _ => by
    unfold replaceDD
    split <;> simp

theorem replaceDD_length_le : ∀ l : List Nat, (replaceDD l).length ≤ l.length
  | [] => Nat.le_refl _
  | [_] => Nat.le_refl _
  | _ :: b :: r => by
    unfold replaceDD
    split
    · have := replaceDD_length_le r
      simp only [List.length_cons]
      omega
    · have := replaceDD_length_le (b :: r)
      simp only [List.length_cons] at *
      omega

theorem replaceDD_length_lt : ∀ l : List Nat, hasDD l = true → (replaceDD l).length < l.length
  | [], h => by simp [hasDD] at h
  | [_], h => by simp [hasDD] at h
  | a :: b :: r, h => by
    unfold replaceDD
    split
    · have := replaceDD_length_le r
      simp only [List.length_cons]
      omega
    · rename_i hcond
      have h2 : hasDD (b :: r) = true := by
        unfold hasDD at h
        rcases Bool.or_eq_true_iff.mp h with h1 | h1
        · exact absurd h1 hcond
        · exact h1
      have := replaceDD_length_lt (b :: r) h2
      simp only [List.length_cons] at *
      omega

theorem hasDD_of_short : ∀ l : List Nat, l.length ≤ 1 → hasDD l = false
  | [], _ => rfl
  | [_], _ => rfl
  | _ :: _ :: _, h => by simp at h

theorem head?_replaceDD : ∀ l : List Nat, (replaceDD l).head? = l.head?
  | [] => rfl
  | [_] => rfl
  | a :: b :: r => by
    unfold replaceDD
    split
    · rename_i hcond
      simp only [Bool.and_eq_true, decide_eq_true_eq] at hcond
      simp [hcond.1]
    · simp

theorem getLast?_replaceDD : ∀ l : List Nat, (replaceDD l).getLast? = l.getLast?
  | [] => rfl
  | [_] => rfl
  | a :: b :: r => by
    unfold replaceDD
    split
    · rename_i hcond
      simp only [Bool.and_eq_true, decide_eq_true_eq] at hcond
      cases r with
      | nil => simp [replaceDD, hcond.2]
      | cons x xs =>
        have hne := replaceDD_ne_nil (x :: xs) (by simp)
        rw [getLast?_cons_of_ne_nil hne, getLast?_replaceDD (x :: xs),
          List.getLast?_cons_cons, List.getLast?_cons_cons]
    · have hne := replaceDD_ne_nil (b :: r) (by simp)
      rw [getLast?_cons_of_ne_nil hne, getLast?_replaceDD (b :: r), List.getLast?_cons_cons]

theorem mem_replaceDD {c : Nat} : ∀ l : List Nat, c ∈ replaceDD l → c ∈ l
  | [], h => h
  | [_], h => by simpa [replaceDD] using h
  | a :: b :: r, h => by
    unfold replaceDD at h
    split at h
    · rename_i hcond
      simp only [Bool.and_eq_true, decide_eq_true_eq] at hcond
      rcases List.mem_cons.mp h with h1 | h1
      · exact h1 ▸ (by simp [hcond.1])
      · have := mem_replaceDD r h1
        simp [this]
    · rcases List.mem_cons.mp h with h1 | h1
      · simp [h1]
      · have := mem_replaceDD (b :: r) h1
        simp only [List.mem_cons] at this ⊢
        tauto

theorem goCollapse_eq_of_not {x : List Nat} (n : Nat) (h : hasDD x = false) :
    goCollapse n x = x := by
  cases n <;> simp [goCollapse, h]

theorem mem_goCollapse {c : Nat} : ∀ (n : Nat) (x : List Nat), c ∈ goCollapse n x → c ∈ x
  | 0, _, h => h
  | n + 1, x, h => by
    unfold goCollapse at h
    split at h
    · exact mem_replaceDD x (mem_goCollapse n (replaceDD x) h)
    · exact h

theorem head?_goCollapse : ∀ (n : Nat) (x : List Nat), (goCollapse n x).head? = x.head?
  | 0, _ => rfl
  | n + 1, x => by
    unfold goCollapse
    split
    · rw [head?_goCollapse n (replaceDD x), head?_replaceDD]
    · rfl

theorem getLast?_goCollapse : ∀ (n : Nat) (x : List Nat), (goCollapse n x).getLast? = x.getLast?
  | 0, _ => rfl
  | n + 1, x => by
    unfold goCollapse
    split
    · rw [getLast?_goCollapse n (replaceDD x), getLast?_replaceDD]
    · rfl

theorem goCollapse_ne_nil : ∀ (n : Nat) (x : List Nat), x ≠ [] → goCollapse n x ≠ []
  | 0, _, h => h
  | n + 1, x, h => by
    unfold goCollapse
    split
    · exact goCollapse_ne_nil n (replaceDD x) (replaceDD_ne_nil x h)
    · exact h

theorem hasDD_goCollapse : ∀ (n : Nat) (x : List Nat), x.length ≤ n + 1 →
    hasDD (goCollapse n x) = false
  | 0, x, h => by
    rw [goCollapse]
    exact hasDD_of_short x h
  | n + 1, x, h => by
    unfold goCollapse
    split
    · rename_i hdd
      exact hasDD_goCollapse n (replaceDD x)
        (by have := replaceDD_length_lt x hdd; omega)
    · rename_i hdd
      exact Bool.of_not_eq_true hdd

theorem hasDD_collapseDD (l : List Nat) : hasDD (collapseDD l) = false :=
  hasDD_goCollapse l.length l (by omega)

theorem collapseDD_eq_of_not {l : List Nat} (h : hasDD l = false) : collapseDD l = l :=
  goCollapse_eq_of_not l.length h

theorem mem_collapseDD {c : Nat} {l : List Nat} (h : c ∈ collapseDD l) : c ∈ l :=
  mem_goCollapse l.length l h

theorem head?_collapseDD (l : List Nat) : (collapseDD l).head? = l.head? :=
  head?_goCollapse l.length l

theorem getLast?_collapseDD (l : List Nat) : (collapseDD l).getLast? = l.getLast? :=
  getLast?_goCollapse l.length l

theorem collapseDD_ne_nil {l : List Nat} (h : l ≠ []) : collapseDD l ≠ [] :=
  goCollapse_ne_nil l.length l h

theorem head?_dropWhile_false {p : Nat → Bool} {c : Nat} :
    ∀ l : List Nat, (l.dropWhile p).head? = some c → p c = false
  | [], h => by simp [List.dropWhile] at h
  | a :: t, h => by
    rw [List.dropWhile_cons] at h
    by_cases hpa : p a = true
    · rw [if_pos hpa] at h
      exact head?_dropWhile_false t h
    · rw [if_neg hpa] at h
      simp only [List.head?_cons, Option.some.injEq] at h
      rw [← h]
      exact Bool.of_not_eq_true hpa

theorem dropWhile_eq_self_of_head {p : Nat → Bool} {l : List Nat}
    (h : ∀ c, l.head? = some c → p c = false) : l.dropWhile p = l := by
  cases l with
  | nil => rfl
  | cons a t =>
    rw [List.dropWhile_cons, if_neg]
    rw [h a rfl]
    simp

theorem getLast?_dropWhile_of_ne_nil {p : Nat → Bool} :
    ∀ l : List Nat, l.dropWhile p ≠ [] → (l.dropWhile p).getLast? = l.getLast?
  | [], h => absurd rfl h
  | a :: t, h => by
    rw [List.dropWhile_cons]
    rw [List.dropWhile_cons] at h
    by_cases hpa : p a = true
    · rw [if_pos hpa] at h ⊢
      have ht : t ≠ [] := by
        intro ht
        rw [ht] at h
        simp [List.dropWhile] at h
      rw [getLast?_dropWhile_of_ne_nil t h, getLast?_cons_of_ne_nil ht]
    · rw [if_neg hpa]

theorem pyStrip_head {l : List Nat} {c : Nat} (h : (pyStrip l).head? = some c) :
    pyIsSpaceB c = false := by
  unfold pyStrip at h
  rw [List.head?_reverse] at h
  set x := (l.dropWhile pyIsSpaceB).reverse.dropWhile pyIsSpaceB with hx
  have hxne : x ≠ [] := by
    intro hnil
    rw [hnil] at h
    simp at h
  rw [getLast?_dropWhile_of_ne_nil _ hxne, List.getLast?_reverse] at h
  exact head?_dropWhile_false _ h

theorem pyStrip_getLast {l : List Nat} {c : Nat} (h : (pyStrip l).getLast? = some c) :
    pyIsSpaceB c = false := by
  unfold pyStrip at h
  rw [List.getLast?_reverse] at h
  exact head?_dropWhile_false _ h

theorem pyStrip_eq_self {l : List Nat}
    (h1 : ∀ c, l.head? = some c → pyIsSpaceB c = false)
    (h2 : ∀ c, l.getLast? = some c → pyIsSpaceB c = false) : pyStrip l = l := by
  unfold pyStrip
  rw [dropWhile_eq_self_of_head h1]
  rw [dropWhile_eq_self_of_head (fun c hc => h2 c (by rwa [List.head?_reverse] at hc))]
  exact List.reverse_reverse l

theorem hasDD_map_pyLower : ∀ l : List Nat, hasDD (l.map pyLower) = hasDD l
  | [] => rfl
  | [_] => rfl
  | a :: b :: r => by
    have hab : (pyLower a = 45 && pyLower b = 45) = (a = 45 && b = 45) := by
      by_cases ha : a = 45 <;> by_cases hb : b = 45 <;>
        simp [ha, hb, pyLower_eq_45_iff, (pyLower_eq_45_iff a).not, (pyLower_eq_45_iff b).not]
    calc hasDD ((a :: b :: r).map pyLower)
        = ((pyLower a = 45 && pyLower b = 45) || hasDD ((b :: r).map pyLower)) := by
          simp [hasDD]
      _ = ((a = 45 && b = 45) || hasDD (b :: r)) := by
          rw [hab, hasDD_map_pyLower (b :: r)]
      _ = hasDD (a :: b :: r) := by simp [hasDD]

theorem pyLower_ne_95 {d : Nat} (hd : d ≠ 95) : pyLower d ≠ 95 := by
  unfold pyLower
  split <;> omega

theorem pyLower_ne_32 {d : Nat} (hd : d ≠ 32) : pyLower d ≠ 32 := by
  unfold pyLower
  split <;> omega

theorem pyIsSpaceB_subst {a b c : Nat} (hb : pyIsSpaceB b = false)
    (hc : pyIsSpaceB c = false) : pyIsSpaceB (if c = a then b else c) = false := by
  split <;> assumption

theorem map_pyLower_fix {l : List Nat} (h : ∀ c ∈ l, pyLower c = c) : l.map pyLower = l := by
  simp [List.map_congr_left h]

theorem normP_mem {s : List Nat} {c : Nat} (h : c ∈ normalize_widget_name_presence s) :
    pyLower c = c ∧ c ≠ 95 ∧ c ≠ 32 := by
  unfold normalize_widget_name_presence at h
  have h1 := mem_collapseDD h
  rcases mem_replaceCh h1 with h45 | ⟨h2, hne32⟩
  · subst h45
    refine ⟨by decide, by decide, by decide⟩
  rcases mem_replaceCh h2 with h45 | ⟨h3, hne95⟩
  · subst h45
    refine ⟨by decide, by decide, by decide⟩
  obtain ⟨d, _, hdc⟩ := List.mem_map.mp h3
  exact ⟨hdc ▸ pyLower_idem d, hne95, hne32⟩

theorem normP_hasDD (s : List Nat) : hasDD (normalize_widget_name_presence s) = false := by
  unfold normalize_widget_name_presence
  exact hasDD_collapseDD _

theorem normP_head_not_space {s : List Nat} {c : Nat}
    (h : (normalize_widget_name_presence s).head? = some c) : pyIsSpaceB c = false := by
  unfold normalize_widget_name_presence replaceCh at h
  rw [head?_collapseDD, List.head?_map, List.head?_map, List.head?_map] at h
  cases hh : (pyStrip s).head? with
  | none => rw [hh] at h; simp at h
  | some d =>
    rw [hh] at h
    simp only [Option.map_some', Option.some.injEq] at h
    subst h
    have hd := pyStrip_head hh
    have hld : pyIsSpaceB (pyLower d) = false := by rw [pyIsSpaceB_pyLower]; exact hd
    exact pyIsSpaceB_subst (by decide) (pyIsSpaceB_subst (by decide) hld)

theorem normP_getLast_not_space {s : List Nat} {c : Nat}
    (h : (normalize_widget_name_presence s).getLast? = some c) : pyIsSpaceB c = false := by
  unfold normalize_widget_name_presence replaceCh at h
  rw [getLast?_collapseDD, getLast?_map, getLast?_map, getLast?_map] at h
  cases hh : (pyStrip s).getLast? with
  | none => rw [hh] at h; simp at h
  | some d =>
    rw [hh] at h
    simp only [Option.map_some', Option.some.injEq] at h
    subst h
    have hd := pyStrip_getLast hh
    have hld : pyIsSpaceB (pyLower d) = false := by rw [pyIsSpaceB_pyLower]; exact hd
    exact pyIsSpaceB_subst (by decide) (pyIsSpaceB_subst (by decide) hld)

theorem normP_idem (s : List Nat) :
    normalize_widget_name_presence (normalize_widget_name_presence s) =
      normalize_widget_name_presence s := by
  rw [show normalize_widget_name_presence (normalize_widget_name_presence s) =
      collapseDD (replaceCh 32 45 (replaceCh 95 45
        ((pyStrip (normalize_widget_name_presence s)).map pyLower))) from rfl]
  rw [pyStrip_eq_self (fun c hc => normP_head_not_space hc)
      (fun c hc => normP_getLast_not_space hc)]
  rw [map_pyLower_fix (fun c hc => (normP_mem hc).1)]
  rw [replaceCh_eq_self (fun hmem => (normP_mem hmem).2.1 rfl)]
  rw [replaceCh_eq_self (fun hmem => (normP_mem hmem).2.2 rfl)]
  exact collapseDD_eq_of_not (normP_hasDD s)

theorem normH_mem {s : List Nat} {c : Nat} (h : c ∈ normalize_widget_name s) :
    pyLower c = c ∧ c ≠ 95 ∧ c ≠ 32 := by
  unfold normalize_widget_name at h
  split at h
  · simp at h
  · dsimp only at h
    split at h
    · simp at h
    · obtain ⟨d, hd, hdc⟩ := List.mem_map.mp h
      have hd2 := mem_collapseDD hd
      have hd95 : d ≠ 95 ∧ d ≠ 32 := by
        rcases mem_replaceCh hd2 with h45 | ⟨hd3, hne32⟩
        · subst h45; exact ⟨by decide, by decide⟩
        rcases mem_replaceCh hd3 with h45 | ⟨_, hne95⟩
        · subst h45; exact ⟨by decide, by decide⟩
        · exact ⟨hne95, hne32⟩
      exact ⟨hdc ▸ pyLower_idem d, hdc ▸ pyLower_ne_95 hd95.1, hdc ▸ pyLower_ne_32 hd95.2⟩

theorem normH_hasDD (s : List Nat) : hasDD (normalize_widget_name s) = false := by
  unfold normalize_widget_name
  split
  · rfl
  · dsimp only
    split
    · rfl
    · rw [hasDD_map_pyLower]
      exact hasDD_collapseDD _

theorem normH_head_not_space {s : List Nat} {c : Nat}
    (h : (normalize_widget_name s).head? = some c) : pyIsSpaceB c = false := by
  unfold normalize_widget_name replaceCh at h
  split at h
  · simp at h
  · dsimp only at h
    split at h
    · simp at h
    · rw [List.head?_map, head?_collapseDD, List.head?_map, List.head?_map] at h
      cases hh : (pyStrip s).head? with
      | none => rw [hh] at h; simp at h
      | some d =>
        rw [hh] at h
        simp only [Option.map_some', Option.some.injEq] at h
        subst h
        have hd := pyStrip_head hh
        rw [pyIsSpaceB_pyLower]
        exact pyIsSpaceB_subst (by decide) (pyIsSpaceB_subst (by decide) hd)

theorem normH_getLast_not_space {s : List Nat} {c : Nat}
    (h : (normalize_widget_name s).getLast? = some c) : pyIsSpaceB c = false := by
  unfold normalize_widget_name replaceCh at h
  split at h
  · simp at h
  · dsimp only at h
    split at h
    · simp at h
    · rw [getLast?_map, getLast?_collapseDD, getLast?_map, getLast?_map] at h
      cases hh : (pyStrip s).getLast? with
      | none => rw [hh] at h; simp at h
      | some d =>
        rw [hh] at h
        simp only [Option.map_some', Option.some.injEq] at h
        subst h
        have hd := pyStrip_getLast hh
        rw [pyIsSpaceB_pyLower]
        exact pyIsSpaceB_subst (by decide) (pyIsSpaceB_subst (by decide) hd)

theorem normH_ne_nil {s : List Nat} (hs : s ≠ []) (ht : pyStrip s ≠ []) :
    normalize_widget_name s ≠ [] := by
  unfold normalize_widget_name
  rw [if_neg hs, if_neg ht]
  simp only [ne_eq, List.map_eq_nil_iff]
  apply collapseDD_ne_nil
  unfold replaceCh
  simp only [ne_eq, List.map_eq_nil_iff]
  exact ht

theorem normH_idem (s : List Nat) :
    normalize_widget_name (normalize_widget_name s) = normalize_widget_name s := by
  by_cases hs : s = []
  · subst hs; rfl
  by_cases ht : pyStrip s = []
  · rw [show normalize_widget_name s = [] from by
      unfold normalize_widget_name; rw [if_neg hs, if_pos ht]]
    rfl
  have hne := normH_ne_nil hs ht
  have hstrip : pyStrip (normalize_widget_name s) = normalize_widget_name s :=
    pyStrip_eq_self (fun c hc => normH_head_not_space hc)
      (fun c hc => normH_getLast_not_space hc)
  rw [show normalize_widget_name (normalize_widget_name s) =
      (if normalize_widget_name s = [] then []
       else if pyStrip (normalize_widget_name s) = [] then []
       else (collapseDD (replaceCh 32 45 (replaceCh 95 45
         (pyStrip (normalize_widget_name s))))).map pyLower) from rfl]
  rw [if_neg hne, hstrip, if_neg hne]
  rw [replaceCh_eq_self (fun hmem => (normH_mem hmem).2.1 rfl)]
  rw [replaceCh_eq_self (fun hmem => (normH_mem hmem).2.2 rfl)]
  rw [collapseDD_eq_of_not (normH_hasDD s)]
  exact map_pyLower_fix (fun c hc => (normH_mem hc).1)

theorem cjsOriented_eq_false {cmd : List String} (h1 : "ts-node/register" ∉ cmd)
    (h2 : "--transpile-only" ∉ cmd ∨ "--esm" ∈ cmd) : cjsOriented cmd = false := by
  rcases h2 with h2 | h2 <;> simp [cjsOriented, h1, h2]

theorem mem_uniqRunners : ∀ (l : List (List String)) (seen : List String) (r : List String),
    r ∈ uniqRunners l seen → r ∈ l
  | [], _, _, h => by simp [uniqRunners] at h
  | x :: rest, seen, r, h => by
    unfold uniqRunners at h
    dsimp only at h
    split at h
    · exact List.mem_cons_of_mem _ (mem_uniqRunners rest _ r h)
    · rcases List.mem_cons.mp h with h1 | h1
      · exact h1 ▸ List.mem_cons_self x rest
      · exact List.mem_cons_of_mem _ (mem_uniqRunners rest _ r h1)

/-! ## Claim theorems -/

/-- C9: widget-name normalisation is idempotent, and every output is
lowercase, contains no underscore (95), no space (32), and no two
consecutive hyphens — for both `_normalize_widget_name`
(`confluence_save_table_with_presence.py`) and `normalize_widget_name`
(`find_published_widgets_hardened.py`). -/
theorem c9_widget_name_normalization (s : List Nat) :
    (normalize_widget_name_presence (normalize_widget_name_presence s) =
        normalize_widget_name_presence s
      ∧ (∀ c ∈ normalize_widget_name_presence s, pyLower c = c)
      ∧ 95 ∉ normalize_widget_name_presence s
      ∧ 32 ∉ normalize_widget_name_presence s
      ∧ hasDD (normalize_widget_name_presence s) = false)
    ∧ (normalize_widget_name (normalize_widget_name s) = normalize_widget_name s
      ∧ (∀ c ∈ normalize_widget_name s, pyLower c = c)
      ∧ 95 ∉ normalize_widget_name s
      ∧ 32 ∉ normalize_widget_name s
      ∧ hasDD (normalize_widget_name s) = false) :=
  ⟨⟨normP_idem s, fun _ hc => (normP_mem hc).1, fun h => (normP_mem h).2.1 rfl,
      fun h => (normP_mem h).2.2 rfl, normP_hasDD s⟩,
    ⟨normH_idem s, fun _ hc => (normH_mem hc).1, fun h => (normH_mem h).2.1 rfl,
      fun h => (normH_mem h).2.2 rfl, normH_hasDD s⟩⟩

/-- Witness for C9 at the code points of `"  My__Widget Name "`. -/
theorem c9_widget_name_normalization_witness :
    normalize_widget_name_presence (normalize_widget_name_presence
        [32, 32, 77, 121, 95, 95, 87, 105, 100, 103, 101, 116, 32, 78, 97, 109, 101, 32]) =
      normalize_widget_name_presence
        [32, 32, 77, 121, 95, 95, 87, 105, 100, 103, 101, 116, 32, 78, 97, 109, 101, 32]
    ∧ 95 ∉ normalize_widget_name
        [32, 32, 77, 121, 95, 95, 87, 105, 100, 103, 101, 116, 32, 78, 97, 109, 101, 32] :=
  ⟨(c9_widget_name_normalization _).1.1, (c9_widget_name_normalization _).2.2.2.1⟩

/-- C1 counterexample: the combined publisher, given a GET response with
`version.number = 0`, submits `2` in the PUT payload rather than `0 + 1`
(`int(version_obj.get("number") or 1)` coerces the falsy `0` to `1`). -/
theorem c1_counterexample :
    combinedNextVersion (some 0) = 2 ∧ (2 : Int) ≠ 0 + 1 := by decide

/-- C1 (amended): for every GET-returned version number `N ≥ 1` both
publishers submit `N + 1` computed from the GET value; the pipeline's
`update_page_storage` does so for every `N`. -/
theorem c1_optimistic_version_bump (N : Int) (h : 1 ≤ N) (pageId htmlBody : String)
    (title : Option String) :
    (update_page_storage pageId htmlBody title (some N)).versionNumber = N + 1
    ∧ combinedNextVersion (some N) = N + 1 := by
  constructor
  · simp [update_page_storage, get_page_version]
  · show (if N = 0 then (1 : Int) else N) + 1 = N + 1
    rw [if_neg (by omega)]

/-- Witness for C1 (amended) at the spec's scenario `N = 12`. -/
theorem c1_optimistic_version_bump_witness :
    (update_page_storage "21609790602" "<p/>" none (some 12)).versionNumber = 12 + 1
    ∧ combinedNextVersion (some 12) = 12 + 1 :=
  c1_optimistic_version_bump 12 (by norm_num) "21609790602" "<p/>" none

/-- C2: at the failing input — the file exists with size 0 at every poll
and at the deadline — the presence-variant wait phase proceeds to read
the file instead of raising the artifact-not-found failure; the
presence_2 variant raises as the claim requires. -/
theorem c2_wait_timeout_empty_file :
    wait_for_artifact_presence [⟨true, 0⟩, ⟨true, 0⟩] ⟨true, 0⟩ = WaitOutcome.readAttempted
    ∧ wait_for_artifact_presence2 [⟨true, 0⟩, ⟨true, 0⟩] = WaitOutcome.raisedNotFound := by
  decide

/-- C3 counterexample: in `render_html`, the widget `"a"` that was never
probed (absent from `published_versions` — unknown) and the widget `"b"`
that was probed with no DEV release (confirmed absent) both render the
same `"❌"` marker in the PROM cell. -/
theorem c3_counterexample :
    lookupPub [("b", ⟨"b", none, none⟩)] (normalize_key "a") = none
    ∧ lookupPub [("b", ⟨"b", none, none⟩)] (normalize_key "b") = some ⟨"b", none, none⟩
    ∧ promCellPy ((lookupPub [("b", ⟨"b", none, none⟩)] (normalize_key "a")).bind
        PubEntry.dev) =
      promCellPy ((lookupPub [("b", ⟨"b", none, none⟩)] (normalize_key "b")).bind
        PubEntry.dev)
    ∧ promCellPy ((lookupPub [("b", ⟨"b", none, none⟩)] (normalize_key "b")).bind
        PubEntry.dev) = "❌" := by decide

/-- C3 (amended): `render_table_html` selects its cell marker by exact
tri-state identity, with three pairwise distinct fixed markers; the
simplified `render_html` collapses unknown and absent into `"❌"`. -/
theorem c3_presence_marker_tristate :
    presenceMarker (some true) = "✅"
    ∧ presenceMarker (some false) = "❌"
    ∧ presenceMarker none = "—"
    ∧ presenceMarker (some true) ≠ presenceMarker (some false)
    ∧ presenceMarker (some true) ≠ presenceMarker none
    ∧ presenceMarker (some false) ≠ presenceMarker none := by decide

/-- C4: `dataframe_to_confluence_html_table` (pandas `to_html` with
`escape=False`) emits a user-controlled field containing `<script>`
verbatim into the table; with escaping (as `render_table_html`'s `_safe`
does via `html.escape`) the raw tag would not appear. -/
theorem c4_unescaped_field_emitted :
    hasSubstring "<script>".data
      (dataframe_to_confluence_html_table ["widget"]
        [["<script>alert(1)</script>"]]).data = true
    ∧ hasSubstring "<script>".data
      (pandas_to_html true ["widget"] [["<script>alert(1)</script>"]]).data = false
    ∧ hasSubstring "<script>".data (htmlEscape "<script>alert(1)</script>").data = false := by
  decide

/-- C5 counterexample: for a project whose `package.json` declares
`"type": "module"`, `_maybe_run_ts` (which never reads the manifest)
returns the CommonJS-oriented candidate at position 0 and the
ESM-oriented candidate at position 1 — a CJS candidate precedes an ESM
one. -/
theorem c5_counterexample :
    maybe_run_ts_runners (some "module") "script.ts" (some "node") none none none none =
      [["node", "-r", "ts-node/register", "script.ts"],
       ["node", "--loader", "ts-node/esm", "script.ts"]]
    ∧ cjsOriented ["node", "-r", "ts-node/register", "script.ts"] = true
    ∧ esmOriented ["node", "--loader", "ts-node/esm", "script.ts"] = true
    ∧ esmOriented ["node", "-r", "ts-node/register", "script.ts"] = false := by decide

/-- C5 (amended): `_pick_runners` in the presence variant, for a project
declaring `"type": "module"` (detected as ESM), returns no
CommonJS-oriented candidate at all, so every ESM-oriented candidate
precedes every CJS-oriented one; `_maybe_run_ts` in the combined variant
violates the claim (see the counterexample). -/
theorem c5_pick_runners_esm (tsModule : Option String) (script : String) (b : Bins)
    (hscript : script ≠ "ts-node/register" ∧ script ≠ "--transpile-only")
    (htsx : ∀ x ∈ b.tsx, x ≠ "ts-node/register" ∧ x ≠ "--transpile-only")
    (htsn : ∀ x ∈ b.tsnode, x ≠ "ts-node/register")
    (hnpx : ∀ x ∈ b.npx, x ≠ "ts-node/register" ∧ x ≠ "--transpile-only")
    (hnode : ∀ x ∈ nodeBins b, x ≠ "ts-node/register" ∧ x ≠ "--transpile-only") :
    detect_module_mode (some "module") tsModule = ModuleMode.esm
    ∧ (∀ cmd ∈ pick_runners script b ModuleMode.esm, cjsOriented cmd = false)
    ∧ ∀ i j : Fin (pick_runners script b ModuleMode.esm).length,
        esmOriented ((pick_runners script b ModuleMode.esm).get i) = true →
        cjsOriented ((pick_runners script b ModuleMode.esm).get j) = true →
        (i : Nat) < j := by
  have hheadD : (nodeBins b).headD "node" ∈ nodeBins b := by
    unfold nodeBins
    split
    · simp
    · rename_i hraw
      cases hb : b.nodeRaw with
      | nil => exact absurd hb hraw
      | cons a t => simp [List.headD_cons]
  have hnocjs : ∀ cmd ∈ pick_runners script b ModuleMode.esm, cjsOriented cmd = false := by
    intro cmd hmem
    have hred : pick_runners script b ModuleMode.esm =
        uniqRunners ((b.tsx.map (fun t => [t, script]))
          ++ (match b.npx with | [] => [] | n :: _ => [[n, "-y", "tsx", script]])
          ++ ((b.tsnode.map (fun t => [t, "--esm", "--transpile-only", script]))
              ++ [[(nodeBins b).headD "node", "--loader", "ts-node/esm", script]])
          ++ []) [] := rfl
    rw [hred] at hmem
    have hmem2 := mem_uniqRunners _ _ _ hmem
    rw [List.append_nil] at hmem2
    rcases List.mem_append.mp hmem2 with hm | hm3
    · rcases List.mem_append.mp hm with hm1 | hm2
      · obtain ⟨t, ht, rfl⟩ := List.mem_map.mp hm1
        have h1 : ¬("ts-node/register" ∈ [t, script]) := by
          simp only [List.mem_cons, List.not_mem_nil, or_false]
          rintro (he | he)
          · exact (htsx t ht).1 he.symm
          · exact hscript.1 he.symm
        have h2 : ¬("--transpile-only" ∈ [t, script]) := by
          simp only [List.mem_cons, List.not_mem_nil, or_false]
          rintro (he | he)
          · exact (htsx t ht).2 he.symm
          · exact hscript.2 he.symm
        exact cjsOriented_eq_false h1 (Or.inl h2)
      · cases hnb : b.npx with
        | nil => rw [hnb] at hm2; simp at hm2
        | cons n rest =>
          rw [hnb] at hm2
          rcases List.mem_singleton.mp hm2 with rfl
          have hn := hnpx n (hnb ▸ List.mem_cons_self n rest)
          have h1 : ¬("ts-node/register" ∈ [n, "-y", "tsx", script]) := by
            simp only [List.mem_cons, List.not_mem_nil, or_false]
            rintro (he | he | he | he)
            · exact hn.1 he.symm
            · exact absurd he (by decide)
            · exact absurd he (by decide)
            · exact hscript.1 he.symm
          have h2 : ¬("--transpile-only" ∈ [n, "-y", "tsx", script]) := by
            simp only [List.mem_cons, List.not_mem_nil, or_false]
            rintro (he | he | he | he)
            · exact hn.2 he.symm
            · exact absurd he (by decide)
            · exact absurd he (by decide)
            · exact hscript.2 he.symm
          simp [cjsOriented, h1, h2]
    · rcases List.mem_append.mp hm3 with hm4 | hm5
      · obtain ⟨t, ht, rfl⟩ := List.mem_map.mp hm4
        have h1 : ¬("ts-node/register" ∈ [t, "--esm", "--transpile-only", script]) := by
          simp only [List.mem_cons, List.not_mem_nil, or_false]
          rintro (he | he | he | he)
          · exact htsn t ht he.symm
          · exact absurd he (by decide)
          · exact absurd he (by decide)
          · exact hscript.1 he.symm
        have h3 : "--esm" ∈ [t, "--esm", "--transpile-only", script] := by simp
        exact cjsOriented_eq_false h1 (Or.inr h3)
      · rcases List.mem_singleton.mp hm5 with rfl
        have hn := hnode _ hheadD
        have h1 : ¬("ts-node/register" ∈
            [(nodeBins b).headD "node", "--loader", "ts-node/esm", script]) := by
          simp only [List.mem_cons, List.not_mem_nil, or_false]
          rintro (he | he | he | he)
          · exact hn.1 he.symm
          · exact absurd he (by decide)
          · exact absurd he (by decide)
          · exact hscript.1 he.symm
        have h2 : ¬("--transpile-only" ∈
            [(nodeBins b).headD "node", "--loader", "ts-node/esm", script]) := by
          simp only [List.mem_cons, List.not_mem_nil, or_false]
          rintro (he | he | he | he)
          · exact hn.2 he.symm
          · exact absurd he (by decide)
          · exact absurd he (by decide)
          · exact hscript.2 he.symm
        exact cjsOriented_eq_false h1 (Or.inl h2)
  refine ⟨rfl, hnocjs, ?_⟩
  intro i j _ hcjs
  have hfalse := hnocjs _ (List.get_mem (pick_runners script b ModuleMode.esm) j.1 j.2)
  rw [hfalse] at hcjs
  exact absurd hcjs (by simp)

/-- Witness for C5 (amended): a concrete ESM project's candidate list
contains the local tsx invocation and it is not CommonJS-oriented. -/
theorem c5_pick_runners_esm_witness :
    cjsOriented ["/repo/node_modules/.bin/tsx", "scripts/build-meta-from-zod.ts"] = false :=
  (c5_pick_runners_esm none "scripts/build-meta-from-zod.ts"
      ⟨["/repo/node_modules/.bin/tsx"], ["/repo/node_modules/.bin/ts-node"], [],
        ["/usr/bin/npx"]⟩
      (by decide) (by decide) (by decide) (by decide) (by decide)).2.1
    ["/repo/node_modules/.bin/tsx", "scripts/build-meta-from-zod.ts"] (by decide)

/-- C6 counterexample: a non-zero exit inside the timeout raises the
process-failed error whose message carries only the exit code; the
captured output `"boom"` does not occur in the raised message. -/
theorem c6_counterexample :
    run_stream 1 2 "boom" 30 = RunResult.processFailed "Процесс завершился с кодом 2"
    ∧ hasSubstring "boom".data "Процесс завершился с кодом 2".data = false := by decide

/-- C6 (amended): `_run_stream` returns normally iff the process exits 0
within the timeout; past the deadline it kills the process and raises
the timeout failure; a non-zero exit within the deadline raises the
process-failed failure carrying the exit code (the captured output is
only streamed to stdout, not attached to the failure). -/
theorem c6_run_stream_contract (t : Nat) (c : Int) (out : String) (T : Nat) :
    (run_stream t c out T = RunResult.ok ↔ (t ≤ T ∧ c = 0))
    ∧ (T < t → run_stream t c out T =
        RunResult.killedTimeout ("Превышен таймаут " ++ toString T ++ " сек"))
    ∧ (t ≤ T → c ≠ 0 → run_stream t c out T =
        RunResult.processFailed ("Процесс завершился с кодом " ++ toString c)) := by
  unfold run_stream
  refine ⟨?_, ?_, ?_⟩
  · by_cases h1 : t ≤ T
    · rw [if_pos h1]
      by_cases h2 : c = 0
      · simp [h1, h2]
      · rw [if_neg h2]
        simp [h2]
    · rw [if_neg h1]
      simp [h1]
  · intro h
    rw [if_neg (by omega)]
  · intro h1 h2
    rw [if_pos h1, if_neg h2]

/-- Witness for C6 (amended) at exit code 3 after 5s with a 10s budget. -/
theorem c6_run_stream_contract_witness :
    run_stream 5 3 "output text" 10 =
      RunResult.processFailed ("Процесс завершился с кодом " ++ toString (3 : Int)) :=
  (c6_run_stream_contract 5 3 "output text" 10).2.2 (by decide) (by decide)

/-- C7: `_presence_for_item` never raises (it is a total function of the
record and the observed probe outcomes); with an empty stripped name or
an unparsable version it skips enrichment leaving every presence field
`None`/unknown; otherwise the presence flags are exactly the swallowed
probe results (`stats.ok and head.ok` per environment) and no error is
propagated. -/
theorem c7_presence_enricher (it : ItemIn) (w : ProbeWorld) :
    ((pyStrip it.name = [] ∨ parse_version it.xVersion = none) →
      presence_for_item it w = skipEnrichment it
      ∧ (presence_for_item it w).devPresent = none
      ∧ (presence_for_item it w).iftPresent = none
      ∧ (presence_for_item it w).devUrl = none
      ∧ (presence_for_item it w).iftUrl = none
      ∧ (presence_for_item it w).presenceFailText = none)
    ∧ (∀ v, parse_version it.xVersion = some v → pyStrip it.name ≠ [] →
      (presence_for_item it w).devPresent =
          some ((fetch_json w.dev.stats).ok && (head_request w.dev.headOutcome).ok)
      ∧ (presence_for_item it w).iftPresent =
          some ((fetch_json w.ift.stats).ok && (head_request w.ift.headOutcome).ok)
      ∧ (presence_for_item it w).presenceFailText = none) := by
  constructor
  · intro h
    cases hnm : pyStrip it.name with
    | nil =>
      simp [presence_for_item, hnm, skipEnrichment]
    | cons c rest =>
      cases hpv : parse_version it.xVersion with
      | none => simp [presence_for_item, hnm, hpv, skipEnrichment]
      | some v =>
        rcases h with h | h
        · rw [hnm] at h
          exact absurd h (by simp)
        · rw [hpv] at h
          exact absurd h (by simp)
  · intro v hv hne
    cases hnm : pyStrip it.name with
    | nil => exact absurd hnm hne
    | cons c rest =>
      simp [presence_for_item, hnm, hv, check_widget, check_widget_in_environment]

/-- Witness for C7: a concrete record (`name = "widget"`, version 7) in a
world where the DEV stats fetch times out and the DEV head 404s while
both IFT probes succeed: DEV resolves absent, IFT present, no failure. -/
theorem c7_presence_enricher_witness :
    (presence_for_item ⟨[119, 105, 100, 103, 101, 116], PyVer.intVal 7⟩
        ⟨⟨HttpOutcome.netFail "timed out", HttpOutcome.httpFail 404⟩,
         ⟨HttpOutcome.success 200 true, HttpOutcome.success 200 true⟩⟩).devPresent =
      some false
    ∧ (presence_for_item ⟨[119, 105, 100, 103, 101, 116], PyVer.intVal 7⟩
        ⟨⟨HttpOutcome.netFail "timed out", HttpOutcome.httpFail 404⟩,
         ⟨HttpOutcome.success 200 true, HttpOutcome.success 200 true⟩⟩).iftPresent =
      some true :=
  ⟨((c7_presence_enricher ⟨[119, 105, 100, 103, 101, 116], PyVer.intVal 7⟩
        ⟨⟨HttpOutcome.netFail "timed out", HttpOutcome.httpFail 404⟩,
         ⟨HttpOutcome.success 200 true, HttpOutcome.success 200 true⟩⟩).2 7 rfl
      (by decide)).1,
    ((c7_presence_enricher ⟨[119, 105, 100, 103, 101, 116], PyVer.intVal 7⟩
        ⟨⟨HttpOutcome.netFail "timed out", HttpOutcome.httpFail 404⟩,
         ⟨HttpOutcome.success 200 true, HttpOutcome.success 200 true⟩⟩).2 7 rfl
      (by decide)).2.1⟩

/-- C8: given the two-level ancestor chain `[100, 200]` returned by the
GET, `confluence_save_table_with_presence.py` `main` puts the full chain
(two entries) into the PUT payload, while `_parent_ancestor`
(combined variant) and the presence_2 `main` keep exactly one entry —
the immediate parent's id `"200"`. -/
theorem c8_ancestors_full_chain :
    presence_main_ancestors [⟨some "100", none⟩, ⟨some "200", none⟩] =
      some [⟨some "100", none⟩, ⟨some "200", none⟩]
    ∧ (presence_main_ancestors [⟨some "100", none⟩, ⟨some "200", none⟩]).map
        List.length = some 2
    ∧ parent_ancestor [⟨some "100", none⟩, ⟨some "200", none⟩] = some ["200"]
    ∧ presence2_ancestors [⟨"100"⟩, ⟨"200"⟩] = some ["200"] := by decide

/-- C10: `run_finder_capture_json` raises the finder-process failure
exactly when the exit code is non-zero and the stripped stdout is empty;
a non-zero exit with non-blank stdout still returns the artifact path
when the output file already exists, and parseable stdout always yields
a path. -/
theorem c10_run_finder_capture_json (cmd : String) (rc : Int) (so se : String)
    (fe p : Bool) (jo : String) (hcmd : cmd ≠ "")
    (hcoh : pyStripStr so = "" → p = false) :
    ((∃ r s, run_finder_capture_json cmd rc so se fe p jo =
        Except.error (FinderFailure.finderFailed r s)) ↔
      (rc ≠ 0 ∧ pyStripStr so = ""))
    ∧ (rc ≠ 0 → pyStripStr so ≠ "" → jo ≠ "" → fe = true →
        run_finder_capture_json cmd rc so se fe p jo = Except.ok jo)
    ∧ (rc ≠ 0 → p = true →
        ∃ path, run_finder_capture_json cmd rc so se fe p jo = Except.ok path) := by
  unfold run_finder_capture_json
  rw [if_neg hcmd]
  refine ⟨?_, ?_, ?_⟩
  · constructor
    · rintro ⟨r, s, h⟩
      by_cases hc : rc ≠ 0 ∧ pyStripStr so = ""
      · exact hc
      · rw [if_neg hc] at h
        split at h
        · exact absurd h (by simp)
        · split at h
          · exact absurd h (by simp)
          · exact absurd h (by simp)
    · rintro ⟨h1, h2⟩
      rw [if_pos ⟨h1, h2⟩]
      exact ⟨rc, se, rfl⟩
  · intro h1 h2 h3 h4
    rw [if_neg (fun hc => h2 hc.2), if_pos ⟨h3, h4⟩]
  · intro h1 hp
    have h2 : pyStripStr so ≠ "" := by
      intro hb
      rw [hcoh hb] at hp
      exact Bool.false_ne_true hp
    rw [if_neg (fun hc => h2 hc.2)]
    by_cases h3 : jo ≠ "" ∧ fe = true
    · rw [if_pos h3]
      exact ⟨jo, rfl⟩
    · rw [if_neg h3, if_pos hp]
      exact ⟨_, rfl⟩

/-- Witness for C10: a finder exiting 2 with blank stdout raises the
process failure; one exiting 3 with non-JSON stdout but an existing
output file still returns that path. -/
theorem c10_run_finder_capture_json_witness :
    (∃ r s, run_finder_capture_json "python finder.py" 2 "  " "boom" true false
        "/tmp/widgets.json" = Except.error (FinderFailure.finderFailed r s))
    ∧ run_finder_capture_json "python finder.py" 3 "partial output" "warn" true false
        "/tmp/widgets.json" = Except.ok "/tmp/widgets.json" :=
  ⟨(c10_run_finder_capture_json "python finder.py" 2 "  " "boom" true false
      "/tmp/widgets.json" (by decide) (fun _ => rfl)).1.mpr ⟨by decide, by decide⟩,
    (c10_run_finder_capture_json "python finder.py" 3 "partial output" "warn" true false
      "/tmp/widgets.json" (by decide) (fun _ => rfl)).2.1 (by decide) (by decide)
      (by decide) rfl⟩

end SAUtils
